import Mathlib

set_option maxRecDepth 100000

/-!
Verification development for the trace-evaluation QA pipeline
(`app/services/qa_pipeline.py` of the debug-trace repository).

The pipeline code is shallowly embedded: pure string and data manipulation is
translated directly; external boundaries (the git clone, the container engine,
the language-model completion service, subprocess execution) are modelled as
oracle parameters describing the outcome of each external call, exactly at the
granularity at which the Python code observes those outcomes (exit codes,
captured output, raised exceptions).  Python floats carry only scores in this
code and are modelled as rationals; Python exceptions are modelled with
`Except String`, the payload being the exception text the code interpolates
into messages.  JSON values are modelled by the inductive type `JVal` and
`json.loads` by the executable decoder `jsonParse`.
-/

/-- JSON values, the model of parsed Python `json` data.  Objects keep key
order (Python dicts preserve insertion order); numbers are rationals. -/
inductive JVal where
  | null : JVal
  | jbool : Bool → JVal
  | num : ℚ → JVal
  | str : String → JVal
  | arr : List JVal → JVal
  | obj : List (String × JVal) → JVal

/-- Lookup of a key in an object field list, first match (keys are unique in
parsed objects because the decoder collapses duplicates). -/
def jLookup (kvs : List (String × JVal)) (k : String) : Option JVal :=
  match kvs with
  | [] => none
  | (k2, v) :: rest => if k2 = k then some v else jLookup rest k

/-- Model of Python `dict.get(k, dflt)` on an object field list. -/
def jGetD (kvs : List (String × JVal)) (k : String) (dflt : JVal) : JVal :=
  (jLookup kvs k).getD dflt

/-- Insert or overwrite a key, keeping the position of an existing key:
the behaviour of assignment into a Python dict. -/
def objInsert (kvs : List (String × JVal)) (k : String) (v : JVal) :
    List (String × JVal) :=
  match kvs with
  | [] => [(k, v)]
  | (k2, v2) :: rest =>
    if k2 = k then (k, v) :: rest else (k2, v2) :: objInsert rest k v

/-! ## Python string primitives

Python strings are sequences of code points; the embedding works on
`String.data` (a `List Char`) so that everything reduces in the kernel. -/

/-- Whitespace for Python `str.strip` (space, tab, newline, carriage return,
vertical tab, form feed). -/
def pySpaceChar (c : Char) : Bool :=
  c = ' ' || c = '\t' || c = '\n' || c = '\r' || c = '\x0b' || c = '\x0c'

/-- Model of Python `str.strip()`. -/
def pyStrip (s : String) : String :=
  String.mk (((s.data.dropWhile pySpaceChar).reverse.dropWhile pySpaceChar).reverse)

/-- Model of Python slicing `s[:n]` (first `n` code points). -/
def pyTake (s : String) (n : Nat) : String :=
  String.mk (s.data.take n)

/-- Model of Python `s[n:]` (drop the first `n` code points). -/
def pyDrop (s : String) (n : Nat) : String :=
  String.mk (s.data.drop n)

/-- Model of Python `s[:-n]` for `n ≤ len s` (drop the last `n` code points). -/
def pyDropRight (s : String) (n : Nat) : String :=
  String.mk (s.data.take (s.data.length - n))

/-- Model of Python `s.startswith(p)`. -/
def pyStartsWith (s p : String) : Bool :=
  p.data.isPrefixOf s.data

/-- Model of Python `s.endswith(p)`. -/
def pyEndsWith (s p : String) : Bool :=
  p.data.isSuffixOf s.data

/-- Model of Python `s.lstrip("/")`. -/
def pyLstripSlash (s : String) : String :=
  String.mk (s.data.dropWhile (fun c => c = '/'))

/-- Code-point lexicographic comparison, the order Python uses to compare
strings (and hence to sort events by their ISO-8601 timestamp strings). -/
def charListLe : List Char → List Char → Bool
  | [], _ => true
  | _ :: _, [] => false
  | a :: as, b :: bs =>
    if a.toNat < b.toNat then true
    else if b.toNat < a.toNat then false
    else charListLe as bs

/-- String comparison used as the sort key order. -/
def strLe (a b : String) : Bool := charListLe a.data b.data

/-! ## A JSON decoder, the model of `json.loads`

The decoder is executable and fuel-indexed.  It accepts the JSON grammar
(objects, arrays, strings with escapes, numbers with fraction and exponent,
`true`, `false`, `null`) and rejects everything else, as `json.loads` does;
the text of the `JSONDecodeError` diagnostic is abstracted by a constant. -/

/-- JSON structural whitespace. -/
def jsonWsChar (c : Char) : Bool :=
  c = ' ' || c = '\t' || c = '\n' || c = '\r'

/-- Value of a decimal digit, if the character is one. -/
def digitVal (c : Char) : Option Nat :=
  if 48 ≤ c.toNat && c.toNat ≤ 57 then some (c.toNat - 48) else none

/-- Value of a hexadecimal digit, if the character is one. -/
def hexVal (c : Char) : Option Nat :=
  if 48 ≤ c.toNat && c.toNat ≤ 57 then some (c.toNat - 48)
  else if 97 ≤ c.toNat && c.toNat ≤ 102 then some (c.toNat - 87)
  else if 65 ≤ c.toNat && c.toNat ≤ 70 then some (c.toNat - 55)
  else none

/-- Split a maximal run of decimal digits off the front of the input. -/
def takeDigits : List Char → List Nat × List Char
  | [] => ([], [])
  | c :: rest =>
    match digitVal c with
    | some d =>
      let (ds, r) := takeDigits rest
      (d :: ds, r)
    | none => ([], c :: rest)

/-- Natural number denoted by a digit list. -/
def natOfDigits (ds : List Nat) : Nat :=
  ds.foldl (fun a d => a * 10 + d) 0

/-- Fractional part of a JSON number (empty when no dot follows). -/
def parseFrac : List Char → Option (ℚ × List Char)
  | '.' :: r =>
    match takeDigits r with
    | ([], _) => none
    | (ds, r2) => some ((natOfDigits ds : ℚ) / ((10 : ℚ) ^ ds.length), r2)
  | cs => some (0, cs)

/-- Exponent part of a JSON number (zero when no `e` follows). -/
def parseExp : List Char → Option (Int × List Char)
  | c :: r =>
    if c = 'e' || c = 'E' then
      let (sgn, r1) : Int × List Char :=
        match r with
        | '+' :: r2 => (1, r2)
        | '-' :: r2 => (-1, r2)
        | _ => (1, r)
      match takeDigits r1 with
      | ([], _) => none
      | (ds, r2) => some (sgn * (natOfDigits ds : Int), r2)
    else some (0, c :: r)
  | [] => some (0, [])

/-- A JSON number: optional minus, digits, fraction, exponent. -/
def parseJNumber (cs : List Char) : Option (ℚ × List Char) :=
  let (neg, cs1) : Bool × List Char :=
    match cs with
    | '-' :: r => (true, r)
    | _ => (false, cs)
  match takeDigits cs1 with
  | ([], _) => none
  | (ds, cs2) =>
    match parseFrac cs2 with
    | none => none
    | some (f, cs3) =>
      match parseExp cs3 with
      | none => none
      | some (e, cs4) =>
        let v : ℚ := ((natOfDigits ds : ℚ) + f) * (10 : ℚ) ^ e
        some (if neg then -v else v, cs4)

/-- Body of a JSON string literal after the opening quote; handles the JSON
escape sequences (a `\u` escape maps to the code point it names; surrogate
pairs are not recombined, which no input in this development uses). -/
def parseJString : Nat → List Char → Option (List Char × List Char)
  | 0, _ => none
  | _, [] => none
  | fuel + 1, c :: rest =>
    if c = '"' then some ([], rest)
    else if c = '\\' then
      match rest with
      | [] => none
      | e :: rest2 =>
        let dec : Option (Char × List Char) :=
          if e = 'n' then some ('\n', rest2)
          else if e = 't' then some ('\t', rest2)
          else if e = 'r' then some ('\r', rest2)
          else if e = 'b' then some ('\x08', rest2)
          else if e = 'f' then some ('\x0c', rest2)
          else if e = '"' || e = '\\' || e = '/' then some (e, rest2)
          else if e = 'u' then
            match rest2 with
            | h1 :: h2 :: h3 :: h4 :: rest3 =>
              match hexVal h1, hexVal h2, hexVal h3, hexVal h4 with
              | some d1, some d2, some d3, some d4 =>
                some (Char.ofNat (((d1 * 16 + d2) * 16 + d3) * 16 + d4), rest3)
              | _, _, _, _ => none
            | _ => none
          else none
        match dec with
        | some (ch, r) =>
          match parseJString fuel r with
          | some (s, r2) => some (ch :: s, r2)
          | none => none
        | none => none
    else if c.toNat < 32 then none
    else
      match parseJString fuel rest with
      | some (s, r2) => some (c :: s, r2)
      | none => none

mutual

/-- One JSON value, leading whitespace allowed. -/
def parseJV : Nat → List Char → Option (JVal × List Char)
  | 0, _ => none
  | fuel + 1, cs =>
    let cs := cs.dropWhile jsonWsChar
    match cs with
    | [] => none
    | '{' :: r =>
      let r1 := r.dropWhile jsonWsChar
      match r1 with
      | '}' :: r2 => some (JVal.obj [], r2)
      | _ =>
        match parseJMembers fuel r1 [] with
        | some (kvs, r2) => some (JVal.obj kvs, r2)
        | none => none
    | '[' :: r =>
      let r1 := r.dropWhile jsonWsChar
      match r1 with
      | ']' :: r2 => some (JVal.arr [], r2)
      | _ =>
        match parseJElems fuel r1 [] with
        | some (vs, r2) => some (JVal.arr vs, r2)
        | none => none
    | '"' :: r =>
      match parseJString (r.length + 1) r with
      | some (s, r2) => some (JVal.str (String.mk s), r2)
      | none => none
    | 't' :: r =>
      if ['r', 'u', 'e'].isPrefixOf r then some (JVal.jbool true, r.drop 3) else none
    | 'f' :: r =>
      if ['a', 'l', 's', 'e'].isPrefixOf r then some (JVal.jbool false, r.drop 4) else none
    | 'n' :: r =>
      if ['u', 'l', 'l'].isPrefixOf r then some (JVal.null, r.drop 3) else none
    | _ =>
      match parseJNumber cs with
      | some (q, r) => some (JVal.num q, r)
      | none => none

/-- Members of a JSON object after the opening brace (nonempty case).
A repeated key overwrites the earlier one, as in Python. -/
def parseJMembers : Nat → List Char → List (String × JVal) →
    Option (List (String × JVal) × List Char)
  | 0, _, _ => none
  | fuel + 1, cs, acc =>
    let cs := cs.dropWhile jsonWsChar
    match cs with
    | '"' :: r =>
      match parseJString (r.length + 1) r with
      | none => none
      | some (key, r2) =>
        match r2.dropWhile jsonWsChar with
        | ':' :: r4 =>
          match parseJV fuel r4 with
          | none => none
          | some (v, r5) =>
            let acc2 := objInsert acc (String.mk key) v
            match r5.dropWhile jsonWsChar with
            | ',' :: r7 => parseJMembers fuel r7 acc2
            | '}' :: r7 => some (acc2, r7)
            | _ => none
        | _ => none
    | _ => none

/-- Elements of a JSON array after the opening bracket (nonempty case). -/
def parseJElems : Nat → List Char → List JVal → Option (List JVal × List Char)
  | 0, _, _ => none
  | fuel + 1, cs, acc =>
    match parseJV fuel cs with
    | none => none
    | some (v, r) =>
      match r.dropWhile jsonWsChar with
      | ',' :: r2 => parseJElems fuel r2 (acc ++ [v])
      | ']' :: r2 => some (acc ++ [v], r2)
      | _ => none

end

/-- Model of `json.loads`: `none` models a raised `JSONDecodeError`. -/
def jsonParse (s : String) : Option JVal :=
  match parseJV (s.data.length + 1) s.data with
  | some (v, rest) => if rest.dropWhile jsonWsChar = [] then some v else none
  | none => none

/-- Stand-in for the diagnostic text carried by a Python `JSONDecodeError`
(the exact wording is irrelevant to every property proved here). -/
def jsonDecodeErrorText : String := "Expecting value"

/-! ## The sandbox working tree and trace data model -/

/-- The sandbox working tree (the temporary clone directory): an association
of repository-relative file paths to file contents.  Directories are implicit
(`os.makedirs(..., exist_ok=True)` can only succeed in this model). -/
abbrev SandboxFS := List (String × String)

/-- Write (create or overwrite) a file, keeping the position of an existing
entry. -/
def fsWrite (fs : SandboxFS) (path content : String) : SandboxFS :=
  match fs with
  | [] => [(path, content)]
  | (p, c) :: rest =>
    if p = path then (path, content) :: rest else (p, c) :: fsWrite rest path content

/-- Contents of a file, if present. -/
def fsLookup (fs : SandboxFS) (path : String) : Option String :=
  match fs with
  | [] => none
  | (p, c) :: rest => if p = path then some c else fsLookup rest path

/-- Model of `os.path.exists` relative to the sandbox root. -/
def fsExists (fs : SandboxFS) (path : String) : Bool :=
  (fsLookup fs path).isSome

/-- One stored event row (`app/models.py`, class `Event`).  The `details`
column holds a JSON string; it is modelled in parsed form, `none` standing
for a string on which `json.loads` raises. -/
structure Event where
  id : Nat
  event_type : String
  event_timestamp : String
  details : Option JVal

/-- One stored trace row (`app/models.py`, class `Trace`), restricted to the
fields the pipeline reads. -/
structure Trace where
  trace_id : String
  repo_url : String
  bug_description : String
  events : List Event

/-! ## Change materialisation: `apply_diffs` (qa_pipeline.py lines 141-189) -/

/-- Outcome of the patch-attempt block (lines 161-172) for one edit event:
the block writes the diff to a temporary `.patch` file, runs
`git -C <dir> apply` without checking its exit status, and removes the patch
file; that file round-trip is folded into the oracle.
`applied fs2` models an exit-0 `git apply` transforming the tree into `fs2`;
`patchFailed` models a nonzero exit (the tree is untouched, `git apply` is
atomic, and the captured result is never inspected by the code);
`patchRaised` models an OS exception raised inside the block. -/
inductive PatchTry where
  | applied (fs2 : SandboxFS)
  | patchFailed
  | patchRaised

/-- Loop body of `apply_diffs` for a single event (lines 143-189).  Notable
faithful details: a non-`@@` diff with a `change` body writes that body
(line 184-185), but a non-string `change` raises `TypeError` from `f.write`
AFTER `open(..., "w")` truncated the file, so the file is left empty; in the
exception handler of the patch attempt (lines 173-179) the fallback opens the
target for writing and executes only `pass`, truncating the file to empty
when a `change` key is present and writing nothing otherwise; and a nonzero
`git apply` exit triggers no fallback at all because `result` is never
checked.  Every exception is swallowed and the loop continues. -/
def applyDiffsStep (patchTry : Nat → SandboxFS → PatchTry) (fs : SandboxFS)
    (ev : Event) : SandboxFS :=
  if ev.event_type = "edit" then
    match ev.details with
    | some (JVal.obj details) =>
      match jGetD details "file" (JVal.str ""), jGetD details "diff" (JVal.str "") with
      | JVal.str file_path, JVal.str diff =>
        if file_path = "" || diff = "" then fs
        else
          let full_path := pyLstripSlash file_path
          if pyStartsWith diff "@@" then
            match patchTry ev.id fs with
            | PatchTry.applied fs2 => fs2
            | PatchTry.patchFailed => fs
            | PatchTry.patchRaised =>
              match jLookup details "change" with
              | some _ => fsWrite fs full_path ""
              | none => fs
          else
            match jLookup details "change" with
            | some (JVal.str change) => fsWrite fs full_path change
            | some _ => fsWrite fs full_path ""
            | none => fs
      | _, _ => fs
    | _ => fs
  else fs

/-- Model of `apply_diffs`: apply the loop body over the events in order.
A non-object or undecodable `details` payload, a missing or falsy `file` or
`diff`, and a non-string `file` or `diff` (which raises at `lstrip` or
`startswith`) all skip the event and continue. -/
def apply_diffs (patchTry : Nat → SandboxFS → PatchTry) (fs : SandboxFS)
    (events : List Event) : SandboxFS :=
  events.foldl (applyDiffsStep patchTry) fs

/-! ## Environment builder: `build_docker_container` (lines 192-251) -/

/-- Dockerfile synthesised for a `package.json` repository (lines 206-211). -/
def nodeDockerfile : String :=
  "FROM node:18\nWORKDIR /app\nCOPY . .\nRUN npm install\nCMD [\"npm\", \"test\"]\n"

/-- Dockerfile synthesised for a `requirements.txt` repository (lines 214-219). -/
def pythonDockerfile : String :=
  "FROM python:3.11\nWORKDIR /app\nCOPY . .\nRUN pip install -r requirements.txt\nCMD [\"pytest\"]\n"

/-- Dockerfile synthesised for a `pom.xml` repository (lines 222-226). -/
def mavenDockerfile : String :=
  "FROM maven:3.8-openjdk-17\nWORKDIR /app\nCOPY . .\nRUN mvn test\n"

/-- Outcome of the `docker build` subprocess call (lines 240-251), an
external boundary: exit 0, a nonzero exit carrying stderr
(`CalledProcessError`), or exceeding the 300s budget (`TimeoutExpired`). -/
inductive BuildOutcome where
  | buildOk
  | buildFailed (stderr : String)
  | buildTimedOut

/-- The language-marker probe of lines 202-228: the Dockerfile content chosen
when none is present, or the `ValueError` text when no marker matches. -/
def detectDockerfileContent (fs : SandboxFS) : Except String String :=
  if fsExists fs "package.json" then Except.ok nodeDockerfile
  else if fsExists fs "requirements.txt" then Except.ok pythonDockerfile
  else if fsExists fs "pom.xml" then Except.ok mavenDockerfile
  else Except.error "No Dockerfile found and could not auto-detect project type"

/-- Model of `build_docker_container`.  The md5-derived image-name suffix is
an oracle (`repoHash`); on success the function returns the possibly extended
tree together with the image name, and on failure the exception text raised
by lines 228, 249 and 251. -/
def build_docker_container (repoHash : String) (build : BuildOutcome)
    (fs : SandboxFS) : Except String (SandboxFS × String) :=
  match (if fsExists fs "Dockerfile" then Except.ok fs
         else match detectDockerfileContent fs with
              | Except.ok content => Except.ok (fsWrite fs "Dockerfile" content)
              | Except.error e => Except.error e) with
  | Except.error e => Except.error e
  | Except.ok fs2 =>
    match build with
    | BuildOutcome.buildOk => Except.ok (fs2, "trace-test-" ++ repoHash)
    | BuildOutcome.buildFailed stderr =>
      Except.error ("Failed to build Docker image: " ++ stderr)
    | BuildOutcome.buildTimedOut => Except.error "Docker build timed out"

/-! ## Test runner: `run_tests_in_container` (lines 254-290) -/

/-- Outcome of one `docker run ... sh -c <cmd>` subprocess call, an external
boundary: a completed process with exit code and captured streams, a
`TimeoutExpired` after the 300s budget, or any other exception. -/
inductive CmdOutcome where
  | exited (code : Int) (out err : String)
  | cmdTimedOut
  | cmdRaised

/-- The fixed, ordered candidate list of test commands (lines 257-265). -/
def test_commands : List String :=
  ["npm test", "python -m pytest", "pytest", "python -m unittest discover",
   "mvn test", "make test", "./test.sh"]

/-- The candidate loop of lines 267-287: a completed process with exit code
other than 127 returns `(code, stdout ++ stderr)`; exit 127 falls through to
the next candidate; a timeout returns `(1, "Test execution timed out")`
without falling through; any other exception falls through. -/
def runTestsLoop (runCmd : String → CmdOutcome) : List String → Int × String
  | [] => (1, "No test command found or all test commands failed")
  | cmd :: rest =>
    match runCmd cmd with
    | CmdOutcome.exited code out err =>
      if code ≠ 127 then (code, out ++ err) else runTestsLoop runCmd rest
    | CmdOutcome.cmdTimedOut => (1, "Test execution timed out")
    | CmdOutcome.cmdRaised => runTestsLoop runCmd rest

/-- Model of `run_tests_in_container`, the outcome per candidate being an
oracle keyed by the command string (the image and sandbox are fixed for one
call). -/
def run_tests_in_container (runCmd : String → CmdOutcome) : Int × String :=
  runTestsLoop runCmd test_commands

/-! ## Test-half orchestration: `run_tests_in_docker` (lines 72-120) -/

/-- Outcome of the `git clone` subprocess (lines 123-138), an external
boundary: success, a nonzero exit carrying stderr, or exceeding the 60s
budget. -/
inductive CloneOutcome where
  | cloned
  | cloneFailed (stderr : String)
  | cloneTimedOut

/-- All external-boundary outcomes one evaluation can observe while running
the test half of the pipeline. -/
structure TestEnv where
  clone : CloneOutcome
  repoFS : SandboxFS
  patchTry : Nat → SandboxFS → PatchTry
  repoHash : String
  build : BuildOutcome
  runCmd : String → CmdOutcome

/-- Model of `run_tests_in_docker`: clone, apply diffs, build, run tests;
the image-removal and directory cleanup of lines 97-105 and 114-120 have no
observable effect on the returned value and are omitted.  Any stage exception
is converted by lines 111-113 into `(False, "Error running tests: " ++ msg)`. -/
def run_tests_in_docker (env : TestEnv) (events : List Event) : Bool × String :=
  match env.clone with
  | CloneOutcome.cloneFailed stderr =>
    (false, "Error running tests: " ++ ("Failed to clone repository: " ++ stderr))
  | CloneOutcome.cloneTimedOut =>
    (false, "Error running tests: " ++ "Repository clone timed out")
  | CloneOutcome.cloned =>
    let fs1 := apply_diffs env.patchTry env.repoFS events
    match build_docker_container env.repoHash env.build fs1 with
    | Except.error msg => (false, "Error running tests: " ++ msg)
    | Except.ok (_, _) =>
      let (exit_code, test_output) := run_tests_in_container env.runCmd
      (exit_code = 0, test_output)

/-! ## Reasoning chains: `build_reasoning_chains` (lines 345-386) -/

/-- Timestamp order used by `sorted(..., key=lambda e: e.event_timestamp)`:
code-point lexicographic comparison of the ISO-8601 timestamp strings. -/
def tsLE (a b : Event) : Prop :=
  strLe a.event_timestamp b.event_timestamp = true

instance : DecidableRel tsLE :=
  fun a b => inferInstanceAs (Decidable (strLe a.event_timestamp b.event_timestamp = true))

/-- One chain link as built by lines 370-382, with the two nested dicts
flattened into named fields: `reasoning_text`, `reasoning_type` and
`reasoning_confidence` are the `.get` results on the reasoning-event details,
`reasoning_timestamp` and `action_timestamp` come from the event rows, and
`action_details` is the parsed action-event details value. -/
structure ChainLink where
  reasoning_text : JVal
  reasoning_type : JVal
  reasoning_confidence : JVal
  reasoning_timestamp : String
  action_type : String
  action_timestamp : String
  action_details : JVal

/-- The link built by lines 370-382 from the current reasoning event and an
action event, when the details of the reasoning event decode to a JSON object
(otherwise `json.loads` or `.get` raises and the `except: continue` of
line 383 skips the link) and the action-event details decode at all. -/
def mkChainLink (r ev : Event) : Option ChainLink :=
  match r.details, ev.details with
  | some (JVal.obj rdetails), some adetails =>
    some { reasoning_text := jGetD rdetails "text" (JVal.str "")
           reasoning_type := jGetD rdetails "reasoning_type" (JVal.str "unknown")
           reasoning_confidence := jGetD rdetails "confidence" (JVal.str "medium")
           reasoning_timestamp := r.event_timestamp
           action_type := ev.event_type
           action_timestamp := ev.event_timestamp
           action_details := adetails }
  | _, _ => none

/-- The scan of lines 358-384 over the timestamp-sorted event list, carrying
the `current_reasoning` state. -/
def chainsLoop : List Event → Option Event → List ChainLink
  | [], _ => []
  | ev :: rest, current =>
    if ev.event_type = "reasoning" then chainsLoop rest (some ev)
    else
      match current with
      | some r =>
        if ev.event_type = "command" ∨ ev.event_type = "edit" then
          match mkChainLink r ev with
          | some link => link :: chainsLoop rest current
          | none => chainsLoop rest current
        else chainsLoop rest current
      | none => chainsLoop rest current

/-- Model of `build_reasoning_chains`: merge the three event lists, sort by
timestamp (Python sorted is stable; so is insertion sort), scan. -/
def build_reasoning_chains (reasoning_events command_events edit_events : List Event) :
    List ChainLink :=
  chainsLoop
    (List.insertionSort tsLE (reasoning_events ++ command_events ++ edit_events))
    none

/-! ## Prompt construction: `format_reasoning_chains` (389-411) and
`construct_enhanced_prompt` (414-484) -/

/-- Rendering used by f-string interpolation.  For string payloads this is
Python `str()`; the rendering of non-string JSON values is abstracted (it
feeds only prompt text and influences no property proved here). -/
def jvalToStr : JVal → String
  | JVal.str s => s
  | JVal.null => "None"
  | JVal.jbool b => if b then "True" else "False"
  | JVal.num q => toString q.num ++ "/" ++ toString q.den
  | JVal.arr _ => "[...]"
  | JVal.obj _ => "\x7b...\x7d"

/-- Model of `v.get(k, dflt)` where `v` may not be a dict (in which case
Python raises `AttributeError`; the diagnostic text is abstracted). -/
def pyGet (v : JVal) (k : String) (dflt : JVal) : Except String JVal :=
  match v with
  | JVal.obj kvs => Except.ok (jGetD kvs k dflt)
  | _ => Except.error "object has no attribute get"

/-- Model of `v[:n]` on a `.get` result: defined for strings; for other
payload types the slice (or the later string use) raises and the caller
propagates.  (A Python list would slice successfully; no property proved here
touches that corner, and the exception path is the conservative model of the
surrounding try.) -/
def pySliceStr (v : JVal) (n : Nat) : Except String String :=
  match v with
  | JVal.str s => Except.ok (pyTake s n)
  | _ => Except.error "value is not sliceable"

/-- The per-chain lines of the loop body (lines 395-409), for chain index `i`
(1-based). -/
def formatChainLink (i : Nat) (c : ChainLink) : Except String (List String) := do
  let tail ←
    if c.action_type = "command" then do
      let cmd ← pyGet c.action_details "command" (JVal.str "N/A")
      let out ← pyGet c.action_details "output" (JVal.str "N/A")
      let outS ← pySliceStr out 200
      pure ["    Command: " ++ jvalToStr cmd, "    Output: " ++ outS]
    else if c.action_type = "edit" then do
      let file ← pyGet c.action_details "file" (JVal.str "N/A")
      let chg ← pyGet c.action_details "change" (JVal.str "N/A")
      let chgS ← pySliceStr chg 100
      pure ["    File: " ++ jvalToStr file, "    Change: " ++ chgS]
    else pure []
  pure (["Chain " ++ toString i ++ ":",
         "  Reasoning (" ++ jvalToStr c.reasoning_type ++ ", confidence: "
           ++ jvalToStr c.reasoning_confidence ++ "):",
         "    " ++ jvalToStr c.reasoning_text,
         "  → Action (" ++ c.action_type ++ "):"]
        ++ tail ++ [""])

/-- The enumerate loop of lines 395-409, starting at index `i`. -/
def formatChainsFrom : List ChainLink → Nat → Except String (List String)
  | [], _ => Except.ok []
  | c :: rest, i => do
    let first ← formatChainLink i c
    let more ← formatChainsFrom rest (i + 1)
    Except.ok (first ++ more)

/-- Model of `format_reasoning_chains`. -/
def format_reasoning_chains (chains : List ChainLink) : Except String String :=
  if chains.isEmpty then Except.ok "No reasoning-action chains found."
  else do
    let lines ← formatChainsFrom chains 1
    Except.ok (String.intercalate "\n" lines)

/-- Python `str()` of a bool, as interpolated into the prompt. -/
def boolPyStr (b : Bool) : String := if b then "True" else "False"

/-- Prompt text before the bug description (line 421-423). -/
def promptHead : String :=
  "You are an expert code reviewer evaluating a developer\x27s debugging reasoning process.\n\nBUG DESCRIPTION:\n"

/-- Prompt text between the bug description and the chains (lines 424-426). -/
def promptChainsHeader : String :=
  "\n\nREASONING-ACTION CHAINS (showing how reasoning led to actions):\n"

/-- Prompt text between the chains and the tests-passed flag (lines 428-430). -/
def promptTestsHeader : String :=
  "\n\nTEST RESULTS:\n- Tests Passed: "

/-- Prompt text between the tests-passed flag and the test output (line 431). -/
def promptTestOutputHeader : String :=
  "\n- Test Output: "

/-- The rubric and output-format tail of the prompt (lines 433-482). -/
def promptRubric : String :=
  "\n\nEVALUATION RUBRIC (score each 1-5, then provide weighted overall score):\n\n"
  ++ "1. HYPOTHESIS QUALITY (20% weight)\n   - Specificity: Were hypotheses specific and actionable?\n"
  ++ "   - Root Cause Analysis: Did they identify root causes vs symptoms?\n   - Testability: Were hypotheses testable?\n\n"
  ++ "2. REASONING CHAIN QUALITY (25% weight)\n   - Logical Flow: Clear progression from observation → hypothesis → test → conclusion?\n"
  ++ "   - Building on Evidence: Did reasoning build on previous insights?\n   - Avoiding Fallacies: Were logical fallacies avoided?\n\n"
  ++ "3. ALTERNATIVE EXPLORATION (15% weight)\n   - Multiple Approaches: Did they explore alternatives?\n"
  ++ "   - Edge Cases: Considered edge cases and boundary conditions?\n   - Critical Thinking: Evidence of questioning assumptions?\n\n"
  ++ "4. ACTION-REASONING ALIGNMENT (20% weight)\n   - Justified Actions: Did commands/edits follow from reasoning?\n"
  ++ "   - Hypothesis Testing: Were actions designed to test hypotheses?\n   - Efficiency: Minimal unnecessary exploration?\n\n"
  ++ "5. CONFIDENCE CALIBRATION (10% weight)\n   - Evidence-Based: Did confidence match evidence quality?\n"
  ++ "   - Appropriate Uncertainty: Were they uncertain when appropriate?\n   - Learning: Did they update confidence based on results?\n\n"
  ++ "6. EFFICIENCY (10% weight)\n   - Direct Path: Was solution reached efficiently?\n"
  ++ "   - Learning from Failures: Did they learn from failed attempts?\n   - Unnecessary Detours: Minimal wasted effort?\n\n"
  ++ "OUTPUT FORMAT (JSON):\n\x7b\n    \"detailed_scores\": \x7b\n        \"hypothesis_quality\": <float 1.0-5.0>,\n"
  ++ "        \"reasoning_chain\": <float 1.0-5.0>,\n        \"alternative_exploration\": <float 1.0-5.0>,\n"
  ++ "        \"action_reasoning_alignment\": <float 1.0-5.0>,\n        \"confidence_calibration\": <float 1.0-5.0>,\n"
  ++ "        \"efficiency\": <float 1.0-5.0>\n    \x7d,\n    \"reasoning_score\": <weighted average float 1.0-5.0>,\n"
  ++ "    \"judge_comments\": \"<detailed explanation with specific examples from the trace>\",\n"
  ++ "    \"strengths\": [\"<strength 1>\", \"<strength 2>\"],\n    \"weaknesses\": [\"<weakness 1>\", \"<weakness 2>\"],\n"
  ++ "    \"recommendations\": [\"<recommendation 1>\", \"<recommendation 2>\"]\n\x7d\n\nRespond ONLY with valid JSON."

/-- Model of `construct_enhanced_prompt` (lines 414-484): the f-string of
lines 421-482 assembled around its interpolated pieces; the exception of a
failed chain formatting propagates. -/
def construct_enhanced_prompt (trace : Trace) (chains : List ChainLink)
    (tests_passed : Bool) (test_output : String) : Except String String := do
  let chains_text ← format_reasoning_chains chains
  let test_output_truncated := if test_output = "" then "N/A" else pyTake test_output 500
  Except.ok (promptHead ++ trace.bug_description ++ promptChainsHeader ++ chains_text
    ++ promptTestsHeader ++ boolPyStr tests_passed ++ promptTestOutputHeader
    ++ test_output_truncated ++ promptRubric)

/-! ## Response parsing: `parse_enhanced_response` (lines 571-623) -/

/-- The markdown code-fence stripping of lines 576-586: strip whitespace,
drop a leading "```json" (7 characters) else a leading "```", drop a trailing
"```", strip again.  The two leading checks are sequential on the already
shortened string, exactly as in the source. -/
def stripFences (response : String) : String :=
  let r0 := pyStrip response
  let r1 := if pyStartsWith r0 "```json" then pyDrop r0 7 else r0
  let r2 := if pyStartsWith r1 "```" then pyDrop r1 3 else r1
  let r3 := if pyEndsWith r2 "```" then pyDropRight r2 3 else r2
  pyStrip r3

/-- Model of Python `float(s)` on a string: optional sign, decimal digits
with optional fraction and exponent, surrounding whitespace allowed.  The
`inf`/`nan` literals and digit underscores are not modelled (nothing here
produces them). -/
def pyFloatOfString (s : String) : Option ℚ :=
  let cs := ((s.data.dropWhile pySpaceChar).reverse.dropWhile pySpaceChar).reverse
  let (neg, cs1) : Bool × List Char :=
    match cs with
    | '+' :: r => (false, r)
    | '-' :: r => (true, r)
    | _ => (false, cs)
  let (ids, cs2) := takeDigits cs1
  let withVal (ip : Nat) (f : ℚ) (csr : List Char) : Option ℚ :=
    match parseExp csr with
    | some (e, []) =>
      let v : ℚ := ((ip : ℚ) + f) * (10 : ℚ) ^ e
      some (if neg then -v else v)
    | _ => none
  match cs2 with
  | '.' :: r =>
    let (fds, cs3) := takeDigits r
    if ids.isEmpty && fds.isEmpty then none
    else withVal (natOfDigits ids) ((natOfDigits fds : ℚ) / ((10 : ℚ) ^ fds.length)) cs3
  | _ =>
    if ids.isEmpty then none else withVal (natOfDigits ids) 0 cs2

/-- Model of Python `float(v)` on a decoded JSON value: numbers pass through,
booleans map to 0/1, numeric strings are converted, everything else raises
(`TypeError`/`ValueError`; the text is abstracted). -/
def pyFloat (v : JVal) : Except String ℚ :=
  match v with
  | JVal.num q => Except.ok q
  | JVal.jbool b => Except.ok (if b then 1 else 0)
  | JVal.str s =>
    match pyFloatOfString s with
    | some q => Except.ok q
    | none => Except.error "could not convert string to float"
  | _ => Except.error "float argument must be a string or a number"

/-- The body of the clamping loop of lines 603-604 over the entries of a
sub-score dict, in order: each value is `float`-converted and clamped to
[1.0, 5.0]; a non-convertible value raises out of the loop. -/
def clampKVs : List (String × JVal) → Except String (List (String × JVal))
  | [] => Except.ok []
  | (k, v) :: rest => do
    let q ← pyFloat v
    let rest2 ← clampKVs rest
    Except.ok ((k, JVal.num (max 1 (min 5 q))) :: rest2)

/-- The clamping loop of lines 603-604 applied to the raw
`detailed_scores` value.  An empty list or empty string iterates zero times
and is returned unchanged; a nonempty non-dict value raises at the
element-keyed indexing (for integer-element lists Python could index
successfully; that corner is modelled as the exception and no property proved
here touches it). -/
def dsClamp : JVal → Except String JVal
  | JVal.obj kvs => do
    let kvs2 ← clampKVs kvs
    Except.ok (JVal.obj kvs2)
  | JVal.arr [] => Except.ok (JVal.arr [])
  | JVal.str "" => Except.ok (JVal.str "")
  | _ => Except.error "detailed_scores value is not index-assignable"

/-- Python `x if isinstance(x, list) else []` (lines 610-612). -/
def asPyList (v : JVal) : JVal :=
  match v with
  | JVal.arr _ => v
  | _ => JVal.arr []

/-- The neutral fallback dict of lines 616-623 returned on a
`JSONDecodeError`. -/
def parseFailDict : JVal :=
  JVal.obj [("detailed_scores", JVal.obj []),
    ("reasoning_score", JVal.num (5 / 2)),
    ("judge_comments", JVal.str ("Failed to parse LLM response: " ++ jsonDecodeErrorText)),
    ("strengths", JVal.arr []),
    ("weaknesses", JVal.arr [JVal.str "Response parsing failed"]),
    ("recommendations", JVal.arr [])]

/-- The field extraction, validation and clamping of lines 591-613 applied to
the decoded JSON value.  A non-object value raises at the first `.get`
(`AttributeError`), which is not a `JSONDecodeError` and therefore escapes
`parse_enhanced_response`. -/
def extractEval (data : JVal) : Except String JVal :=
  match data with
  | JVal.obj kvs => do
    let detailed_scores := jGetD kvs "detailed_scores" (JVal.obj [])
    let reasoning_score ← pyFloat (jGetD kvs "reasoning_score" (JVal.num (5 / 2)))
    let judge_comments := jGetD kvs "judge_comments" (JVal.str "No comments provided")
    let strengths := jGetD kvs "strengths" (JVal.arr [])
    let weaknesses := jGetD kvs "weaknesses" (JVal.arr [])
    let recommendations := jGetD kvs "recommendations" (JVal.arr [])
    let clamped := max 1 (min 5 reasoning_score)
    let detailed2 ← dsClamp detailed_scores
    Except.ok (JVal.obj [("detailed_scores", detailed2),
      ("reasoning_score", JVal.num clamped),
      ("judge_comments", judge_comments),
      ("strengths", asPyList strengths),
      ("weaknesses", asPyList weaknesses),
      ("recommendations", asPyList recommendations)])
  | _ => Except.error "response JSON is not an object"

/-- Model of `parse_enhanced_response`: strip fences, decode; a decode
failure returns the neutral fallback dict (the `except json.JSONDecodeError`
of line 614 catches only that class), any other exception escapes. -/
def parse_enhanced_response (response : String) : Except String JVal :=
  match jsonParse (stripFences response) with
  | none => Except.ok parseFailDict
  | some data => extractEval data

/-! ## The model call: `call_openai_api_structured` (lines 487-568) -/

/-- Outcome of the completion-service interaction, an external boundary.
`structuredOk content` models the schema-constrained beta call succeeding
with the given message content; `schemaUnavailable content` models the
`AttributeError` path of line 546 (schema mode unavailable) followed by the
JSON-mode call returning the given content; `callError msg` models any other
exception raised while importing the client or calling either endpoint. -/
inductive ApiMode where
  | structuredOk (content : String)
  | schemaUnavailable (content : String)
  | callError (msg : String)

/-- Model of `call_openai_api_structured`: the structured-mode content is
passed to `json.loads` directly (line 545) with no validation or clamping;
the JSON-mode content goes through `parse_enhanced_response` (line 566); any
exception escaping either path is rewrapped by line 568 as
"OpenAI API call failed: ...". -/
def call_openai_api_structured (api : ApiMode) : Except String JVal :=
  match api with
  | ApiMode.structuredOk content =>
    match jsonParse content with
    | some v => Except.ok v
    | none => Except.error ("OpenAI API call failed: " ++ jsonDecodeErrorText)
  | ApiMode.schemaUnavailable content =>
    match parse_enhanced_response content with
    | Except.ok v => Except.ok v
    | Except.error e => Except.error ("OpenAI API call failed: " ++ e)
  | ApiMode.callError msg => Except.error ("OpenAI API call failed: " ++ msg)

/-! ## Judgment engine: `evaluate_reasoning_with_llm` (lines 293-342) -/

/-- The default dict of lines 313-320 returned when the trace holds no
reasoning events. -/
def noReasoningDict : JVal :=
  JVal.obj [("reasoning_score", JVal.num (5 / 2)),
    ("judge_comments", JVal.str "No reasoning events found in trace"),
    ("detailed_scores", JVal.obj []),
    ("strengths", JVal.arr []),
    ("weaknesses", JVal.arr [JVal.str "No reasoning events were recorded"]),
    ("recommendations", JVal.arr [JVal.str "Consider adding reasoning events to document your thought process"])]

/-- The default dict of lines 335-342 returned when any exception escapes the
evaluation body. -/
def llmFailDict (e : String) : JVal :=
  JVal.obj [("reasoning_score", JVal.num (5 / 2)),
    ("judge_comments", JVal.str ("LLM evaluation failed: " ++ e)),
    ("detailed_scores", JVal.obj []),
    ("strengths", JVal.arr []),
    ("weaknesses", JVal.arr [JVal.str ("Evaluation error: " ++ e)]),
    ("recommendations", JVal.arr [])]

/-- The prompt the judgment engine submits for a trace (lines 307-309 event
filtering, line 323 chain building, line 326 prompt construction). -/
def judgePrompt (trace : Trace) (tests_passed : Bool) (test_output : String) :
    Except String String :=
  construct_enhanced_prompt trace
    (build_reasoning_chains
      (trace.events.filter (fun e => e.event_type == "reasoning"))
      (trace.events.filter (fun e => e.event_type == "command"))
      (trace.events.filter (fun e => e.event_type == "edit")))
    tests_passed test_output

/-- Model of `evaluate_reasoning_with_llm`.  The completion service is an
oracle mapping the submitted prompt to an `ApiMode` outcome.  With no
reasoning events the default of lines 313-320 is returned before anything
else runs; otherwise any exception from chain formatting, prompt construction
or the model call is converted by lines 333-342 into the failure dict. -/
def evaluate_reasoning_with_llm (api : String → ApiMode) (trace : Trace)
    (tests_passed : Bool) (test_output : String) : JVal :=
  if (trace.events.filter (fun e => e.event_type == "reasoning")).isEmpty then
    noReasoningDict
  else
    match (do
      let prompt ← judgePrompt trace tests_passed test_output
      call_openai_api_structured (api prompt) : Except String JVal) with
    | Except.ok response => response
    | Except.error e => llmFailDict e

/-! ## Orchestrator: `run_qa_pipeline` (lines 17-69)

The database-session operations (`db.add`, `db.commit`, `db.refresh`) are
thin persistence plumbing around the pipeline and are treated as infallible;
the `QAResult` constructor itself is part of the repository (`app/models.py`)
and is modelled exactly: the SQLAlchemy declarative constructor raises
`TypeError` for the first keyword argument that is not an attribute of the
mapped class. -/

/-- The column attributes of the `QAResult` model (`app/models.py`
lines 38-47): these are the only keyword arguments its constructor accepts. -/
def qaResultColumns : List String :=
  ["trace_id", "tests_passed", "reasoning_score", "judge_comments",
   "test_output", "qa_timestamp"]

/-- Keyword arguments passed to `QAResult` in the success path of
`run_qa_pipeline` (lines 40-51), in source order. -/
def qaSuccessKwargs : List String :=
  ["trace_id", "tests_passed", "reasoning_score", "judge_comments",
   "test_output", "qa_timestamp", "detailed_scores", "strengths",
   "weaknesses", "recommendations"]

/-- Keyword arguments passed to `QAResult` in the failure path
(lines 58-65). -/
def qaFailureKwargs : List String :=
  ["trace_id", "tests_passed", "reasoning_score", "judge_comments",
   "test_output", "qa_timestamp"]

/-- First keyword argument the `QAResult` constructor rejects, if any. -/
def invalidKwarg (kwargs : List String) : Option String :=
  kwargs.find? (fun k => !(qaResultColumns.contains k))

/-- Model of Python subscripting `d[k]` on the evaluation result; a missing
key raises `KeyError` whose `str()` is the quoted key. -/
def pySubscript (v : JVal) (k : String) : Except String JVal :=
  match v with
  | JVal.obj kvs =>
    match jLookup kvs k with
    | some x => Except.ok x
    | none => Except.error ("\x27" ++ k ++ "\x27")
  | _ => Except.error "evaluation result is not subscriptable"

/-- The `QAResult` row as the pipeline fills it (the wall-clock
`qa_timestamp` is omitted; `reasoning_score` and `judge_comments` hold
whatever Python values lines 32-33 extracted). -/
structure QAResultRec where
  trace_id : String
  tests_passed : Nat
  reasoning_score : JVal
  judge_comments : JVal
  test_output : String

/-- Model of `run_qa_pipeline`.  The body of the `try` of lines 26-55 runs
the test half, the judgment, the two subscript extractions of lines 32-33 and
the success-path `QAResult` construction; the `json.dumps` serialisations of
lines 34-37 cannot raise and feed only the rejected keyword arguments.  Any
exception lands in the handler of lines 56-69, which constructs the degraded
row; an exception raised by that second construction would escape to the
caller (`Except.error`). -/
def run_qa_pipeline (env : TestEnv) (api : String → ApiMode) (trace : Trace) :
    Except String QAResultRec :=
  let attempt : Except String QAResultRec := do
    let (tests_passed, test_output) := run_tests_in_docker env trace.events
    let evaluation_result := evaluate_reasoning_with_llm api trace tests_passed test_output
    let reasoning_score ← pySubscript evaluation_result "reasoning_score"
    let judge_comments ← pySubscript evaluation_result "judge_comments"
    match invalidKwarg qaSuccessKwargs with
    | some k => Except.error ("\x27" ++ k ++ "\x27 is an invalid keyword argument for QAResult")
    | none =>
      let row : QAResultRec :=
        { trace_id := trace.trace_id
          tests_passed := if tests_passed then 1 else 0
          reasoning_score := reasoning_score
          judge_comments := judge_comments
          test_output := test_output }
      Except.ok row
  match attempt with
  | Except.ok r => Except.ok r
  | Except.error msg =>
    match invalidKwarg qaFailureKwargs with
    | some k => Except.error ("\x27" ++ k ++ "\x27 is an invalid keyword argument for QAResult")
    | none => Except.ok
        ({ trace_id := trace.trace_id
           tests_passed := 0
           reasoning_score := JVal.num 0
           judge_comments := JVal.str ("QA pipeline failed: " ++ msg)
           test_output := msg } : QAResultRec)

/-! ## Specification-side definitions

No code in `qa_pipeline.py` performs any regex-style key extraction (the
comment at line 626 records that the legacy plain-text parser was removed).
The following definitions are therefore written from the specification
wording alone, to compare the claimed four-tier parsing chain against the
implemented one. -/

/-- Rest of the input after the first occurrence of a key pattern. -/
def findAfterKey (key : List Char) : List Char → Option (List Char)
  | [] => none
  | c :: rest =>
    if key.isPrefixOf (c :: rest) then some ((c :: rest).drop key.length)
    else findAfterKey key rest

/-- Modelled from the spec: tier-3 "regex-style key extraction for the
overall score ... from raw text" — locate the `reasoning_score` key and read
the number that follows it. -/
def specExtractScore (s : String) : Option ℚ :=
  match findAfterKey "reasoning_score".data s.data with
  | none => none
  | some rest =>
    match parseJNumber (rest.dropWhile (fun c => !(digitVal c).isSome && c ≠ '-')) with
    | some (q, _) => some q
    | none => none

/-- Modelled from the spec: tier-3 "regex-style key extraction for ...
commentary from raw text" — locate the `judge_comments` key and read the
text that follows it. -/
def specExtractComment (s : String) : Option String :=
  match findAfterKey "judge_comments".data s.data with
  | none => none
  | some rest =>
    let rest2 := rest.dropWhile (fun c => c = ':' || c = ' ' || c = '"')
    some (String.mk (rest2.takeWhile (fun c => c ≠ '"' && c ≠ ',' && c ≠ '\n')))

/-- Modelled from the spec: the result the claimed tier 3 produces when key
extraction succeeds — the extracted overall score and commentary, empty
structured fields. -/
def specTier3 (content : String) : Option JVal :=
  match specExtractScore content with
  | some q =>
    some (JVal.obj [("detailed_scores", JVal.obj []),
      ("reasoning_score", JVal.num q),
      ("judge_comments", JVal.str ((specExtractComment content).getD "")),
      ("strengths", JVal.arr []),
      ("weaknesses", JVal.arr []),
      ("recommendations", JVal.arr [])])
  | none => none

/-- Modelled from the spec: the claimed four-tier parsing chain — (1) parse a
schema-constrained structured response directly; (2) on schema-mode
unavailability parse a JSON-object response after stripping code fences;
(3) on JSON-decode failure, regex-style key extraction of score and
commentary from the raw text; (4) on total failure, the neutral default. -/
def specFourTierParse (api : ApiMode) : JVal :=
  match api with
  | ApiMode.structuredOk content =>
    match jsonParse content with
    | some v => v
    | none => (specTier3 content).getD parseFailDict
  | ApiMode.schemaUnavailable content =>
    match jsonParse (stripFences content) with
    | some data =>
      match extractEval data with
      | Except.ok r => r
      | Except.error _ => (specTier3 content).getD parseFailDict
    | none => (specTier3 content).getD parseFailDict
  | ApiMode.callError _ => parseFailDict

/-! ## Observation helpers used in theorem statements -/

/-- The overall score stored in an evaluation dict, when it is a number. -/
def scoreOfJ (v : JVal) : Option ℚ :=
  match v with
  | JVal.obj kvs =>
    match jLookup kvs "reasoning_score" with
    | some (JVal.num q) => some q
    | _ => none
  | _ => none

/-- The commentary stored in an evaluation dict, when it is a string. -/
def commentOfJ (v : JVal) : Option String :=
  match v with
  | JVal.obj kvs =>
    match jLookup kvs "judge_comments" with
    | some (JVal.str s) => some s
    | _ => none
  | _ => none

/-- A named sub-score inside the `detailed_scores` entry of an evaluation
dict, when present and numeric. -/
def dsScoreOf (v : JVal) (k : String) : Option ℚ :=
  match v with
  | JVal.obj kvs =>
    match jLookup kvs "detailed_scores" with
    | some (JVal.obj ds) =>
      match jLookup ds k with
      | some (JVal.num q) => some q
      | _ => none
    | _ => none
  | _ => none

/-- The payload of a non-raising `Except` computation (`JVal.null` is never a
legitimate payload of the functions observed through this helper). -/
def exValue (x : Except String JVal) : JVal :=
  match x with
  | Except.ok v => v
  | Except.error _ => JVal.null

/-- Specification-side reformulation of one candidate outcome for the test
runner: `none` when the candidate is unresolvable (command-not-found exit 127,
or the process could not be started), otherwise the pair the runner returns
for it (exit code with combined output, or the timeout verdict). -/
def resolveOutcome : CmdOutcome → Option (Int × String)
  | CmdOutcome.exited code out err => if code = 127 then none else some (code, out ++ err)
  | CmdOutcome.cmdTimedOut => some (1, "Test execution timed out")
  | CmdOutcome.cmdRaised => none

/-! ## Concrete fixtures used by witnesses and counterexamples -/

/-- A reasoning event at timestamp t0. -/
def evReasoningT0 : Event :=
  { id := 1, event_type := "reasoning", event_timestamp := "t0",
    details := some (JVal.obj [("text", JVal.str "hypothesis A"),
      ("reasoning_type", JVal.str "hypothesis"), ("confidence", JVal.str "high")]) }

/-- A command event at timestamp t1. -/
def evCommandT1 : Event :=
  { id := 2, event_type := "command", event_timestamp := "t1",
    details := some (JVal.obj [("command", JVal.str "ls"), ("output", JVal.str "ok")]) }

/-- An edit event at timestamp t2. -/
def evEditT2 : Event :=
  { id := 3, event_type := "edit", event_timestamp := "t2",
    details := some (JVal.obj [("file", JVal.str "a.txt"), ("change", JVal.str "fix")]) }

/-- The (Reasoning, Command) link expected from the three events above. -/
def linkRC : ChainLink :=
  { reasoning_text := JVal.str "hypothesis A", reasoning_type := JVal.str "hypothesis",
    reasoning_confidence := JVal.str "high", reasoning_timestamp := "t0",
    action_type := "command", action_timestamp := "t1",
    action_details := JVal.obj [("command", JVal.str "ls"), ("output", JVal.str "ok")] }

/-- The (Reasoning, Edit) link expected from the three events above. -/
def linkRE : ChainLink :=
  { reasoning_text := JVal.str "hypothesis A", reasoning_type := JVal.str "hypothesis",
    reasoning_confidence := JVal.str "high", reasoning_timestamp := "t0",
    action_type := "edit", action_timestamp := "t2",
    action_details := JVal.obj [("file", JVal.str "a.txt"), ("change", JVal.str "fix")] }

/-- An environment in which every external step succeeds: the clone works,
the repository carries a `package.json`, the image builds, and `npm test`
exits 0. -/
def fullSuccessEnv : TestEnv :=
  { clone := CloneOutcome.cloned
    repoFS := [("package.json", "\x7b\x7d"), ("index.js", "module")]
    patchTry := fun _ _ => PatchTry.patchFailed
    repoHash := "abcd1234"
    build := BuildOutcome.buildOk
    runCmd := fun cmd =>
      if cmd = "npm test" then CmdOutcome.exited 0 "all tests passed" ""
      else CmdOutcome.exited 127 "" "command not found" }

/-- A schema-mode model response that is valid JSON with overall score 4.0. -/
def goodApiContent : String :=
  "\x7b\"detailed_scores\": \x7b\"hypothesis_quality\": 4.0\x7d, \"reasoning_score\": 4.0, \"judge_comments\": \"solid analysis\", \"strengths\": [], \"weaknesses\": [], \"recommendations\": []\x7d"

/-- A completion service that always answers in schema mode with
`goodApiContent`. -/
def goodApi : String → ApiMode := fun _ => ApiMode.structuredOk goodApiContent

/-- A trace holding one reasoning event. -/
def oneReasoningTrace : Trace :=
  { trace_id := "trace-1", repo_url := "https://example.com/repo.git",
    bug_description := "button does not respond", events := [evReasoningT0] }

/-- A trace holding only action events (no reasoning). -/
def noReasoningTrace : Trace :=
  { trace_id := "trace-2", repo_url := "https://example.com/repo.git",
    bug_description := "crash on save", events := [evCommandT1, evEditT2] }

/-- An edit event whose diff starts with the unified-diff hunk marker and
whose details carry a full replacement body. -/
def hunkEditEvent : Event :=
  { id := 7, event_type := "edit", event_timestamp := "t0",
    details := some (JVal.obj [("file", JVal.str "src/app.py"),
      ("diff", JVal.str "@@ -1 +1 @@\n-old\n+new"),
      ("change", JVal.str "new content")]) }

/-- A raw model response that is not JSON but plainly carries a score and a
commentary readable by key extraction. -/
def c3BadContent : String := "reasoning_score: 4.0, judge_comments: fine"

/-- Candidate outcomes where `npm test` is command-not-found, the pytest
module run completes with exit 2, and later candidates cannot start. -/
def probeRunA : String → CmdOutcome := fun cmd =>
  if cmd = "npm test" then CmdOutcome.exited 127 "" "sh: npm: not found"
  else if cmd = "python -m pytest" then CmdOutcome.exited 2 "1 failed" ""
  else CmdOutcome.cmdRaised

/-- Same outcomes on every candidate in the list, different off the list. -/
def probeRunB : String → CmdOutcome := fun cmd =>
  if cmd = "rake test" then CmdOutcome.exited 0 "" "" else probeRunA cmd

/-- A repository tree carrying a package manifest and no Dockerfile. -/
def nodeRepoFS : SandboxFS := [("package.json", "\x7b\x7d"), ("index.js", "module")]

/-- An environment whose clone succeeds, whose tree carries a Dockerfile, and
whose image build fails. -/
def buildFailEnv : TestEnv :=
  { clone := CloneOutcome.cloned
    repoFS := [("Dockerfile", "FROM node:18\n")]
    patchTry := fun _ _ => PatchTry.patchFailed
    repoHash := "ffff0000"
    build := BuildOutcome.buildFailed "npm ERR! install failed"
    runCmd := fun _ => CmdOutcome.cmdRaised }

/-- A completion service that always fails with a network error. -/
def netDownApi : String → ApiMode := fun _ => ApiMode.callError "network unreachable"

/-- The same completion service, defined through `netDownApi`. -/
def netDownApi2 : String → ApiMode := fun p => netDownApi p

/-- A JSON-mode model response whose sub-scores and overall score are out of
range on both sides. -/
def c9RawContent : String :=
  "\x7b\"detailed_scores\": \x7b\"efficiency\": 7.0, \"hypothesis_quality\": 0.5\x7d, \"reasoning_score\": 7.0, \"judge_comments\": \"ok\"\x7d"

/-- A decoded response object carrying an out-of-range sub-score and overall
score. -/
def c9Kvs : List (String × JVal) :=
  [("detailed_scores", JVal.obj [("efficiency", JVal.num 7)]),
   ("reasoning_score", JVal.num 7), ("judge_comments", JVal.str "ok")]

/-! ## Helper lemmas -/

/-- Unfolding of the lexicographic comparison on a cons pair. -/
theorem charListLe_cons_iff (a b : Char) (as bs : List Char) :
    charListLe (a :: as) (b :: bs) = true ↔
      a.toNat < b.toNat ∨ (a.toNat = b.toNat ∧ charListLe as bs = true) := by
  simp only [charListLe]
  by_cases h1 : a.toNat < b.toNat
  · simp [h1]
  · by_cases h2 : b.toNat < a.toNat
    · simp [h1, h2]; omega
    · have h3 : a.toNat = b.toNat := by omega
      simp [h1, h2, h3]

/-- The lexicographic comparison is total. -/
theorem charListLe_total (as bs : List Char) :
    charListLe as bs = true ∨ charListLe bs as = true := by
  induction as generalizing bs with
  | nil => left; rfl
  | cons a as ih =>
    cases bs with
    | nil => right; rfl
    | cons b bs =>
      rcases Nat.lt_trichotomy a.toNat b.toNat with h | h | h
      · left; rw [charListLe_cons_iff]; exact Or.inl h
      · rcases ih bs with h2 | h2
        · left; rw [charListLe_cons_iff]; exact Or.inr ⟨h, h2⟩
        · right; rw [charListLe_cons_iff]; exact Or.inr ⟨h.symm, h2⟩
      · right; rw [charListLe_cons_iff]; exact Or.inl h

/-- The lexicographic comparison is transitive. -/
theorem charListLe_trans {as bs cs : List Char} (h1 : charListLe as bs = true)
    (h2 : charListLe bs cs = true) : charListLe as cs = true := by
  induction as generalizing bs cs with
  | nil => rfl
  | cons a as ih =>
    cases bs with
    | nil => simp [charListLe] at h1
    | cons b bs =>
      cases cs with
      | nil => simp [charListLe] at h2
      | cons c cs =>
        rw [charListLe_cons_iff] at h1 h2 ⊢
        rcases h1 with h1 | ⟨h1e, h1r⟩
        · rcases h2 with h2 | ⟨h2e, _⟩
          · exact Or.inl (Nat.lt_trans h1 h2)
          · exact Or.inl (h2e ▸ h1)
        · rcases h2 with h2 | ⟨h2e, h2r⟩
          · exact Or.inl (h1e ▸ h2)
          · exact Or.inr ⟨h1e.trans h2e, ih h1r h2r⟩

/-- The event-timestamp order is total. -/
theorem tsLE_total : ∀ a b : Event, tsLE a b ∨ tsLE b a :=
  fun a b => charListLe_total a.event_timestamp.data b.event_timestamp.data

/-- The event-timestamp order is transitive. -/
theorem tsLE_trans : ∀ a b c : Event, tsLE a b → tsLE b c → tsLE a c :=
  fun _ _ _ h1 h2 => charListLe_trans h1 h2

/-- The candidate loop returns the first resolvable outcome, the default when
none resolves. -/
theorem runTestsLoop_eq_findSome (run : String → CmdOutcome) (cmds : List String) :
    runTestsLoop run cmds =
      (cmds.findSome? (fun c => resolveOutcome (run c))).getD
        (1, "No test command found or all test commands failed") := by
  induction cmds with
  | nil => rfl
  | cons cmd rest ih =>
    simp only [runTestsLoop, List.findSome?]
    cases h : run cmd with
    | exited code out err =>
      by_cases h127 : code = 127
      · subst h127
        simp [resolveOutcome, ih]
      · simp [resolveOutcome, h127]
    | cmdTimedOut => simp [resolveOutcome]
    | cmdRaised => simp [resolveOutcome, ih]

/-- With no reasoning event anywhere in the scanned list and no current
reasoning, the scan yields no link. -/
theorem chainsLoop_eq_nil (l : List Event)
    (h : ∀ e ∈ l, e.event_type ≠ "reasoning") : chainsLoop l none = [] := by
  induction l with
  | nil => rfl
  | cons ev rest ih =>
    have hev : ev.event_type ≠ "reasoning" := h ev (List.mem_cons_self ev rest)
    have hrest : ∀ e ∈ rest, e.event_type ≠ "reasoning" :=
      fun e he => h e (List.mem_cons_of_mem ev he)
    simp only [chainsLoop, if_neg hev]
    exact ih hrest

/-- Timestamps recorded in a link produced by `mkChainLink` are the event
timestamps. -/
theorem mkChainLink_timestamps (r ev : Event) (lk : ChainLink)
    (h : mkChainLink r ev = some lk) :
    lk.reasoning_timestamp = r.event_timestamp ∧
      lk.action_timestamp = ev.event_timestamp := by
  unfold mkChainLink at h
  cases hrd : r.details with
  | none => rw [hrd] at h; exact absurd h (by simp)
  | some rv =>
    cases had : ev.details with
    | none => rw [hrd, had] at h; cases rv <;> exact absurd h (by simp)
    | some av =>
      rw [hrd, had] at h
      cases rv <;> simp at h
      rcases h with ⟨rfl⟩
      exact ⟨rfl, rfl⟩

/-- Every link produced by the scan records an action timestamp at least its
reasoning timestamp, provided the scanned list is sorted and the current
reasoning (if any) predates everything in the list. -/
theorem chainsLoop_ts (l : List Event) (cur : Option Event)
    (hs : List.Pairwise tsLE l)
    (hcur : ∀ r, cur = some r → ∀ e ∈ l, tsLE r e) :
    ∀ lk ∈ chainsLoop l cur,
      strLe lk.reasoning_timestamp lk.action_timestamp = true := by
  induction l generalizing cur with
  | nil => intro lk h; simp [chainsLoop] at h
  | cons ev rest ih =>
    have hpw := List.pairwise_cons.mp hs
    intro lk hlk
    by_cases hev : ev.event_type = "reasoning"
    · rw [show chainsLoop (ev :: rest) cur = chainsLoop rest (some ev) from by
        simp [chainsLoop, hev]] at hlk
      exact ih (some ev) hpw.2 (fun r hr e he => by cases hr; exact hpw.1 e he) lk hlk
    · cases cur with
      | none =>
        rw [show chainsLoop (ev :: rest) none = chainsLoop rest none from by
          simp [chainsLoop, hev]] at hlk
        exact ih none hpw.2 (fun r hr => by cases hr) lk hlk
      | some r =>
        have hradv : ∀ r2, (some r : Option Event) = some r2 → ∀ e ∈ rest, tsLE r2 e := by
          intro r2 hr2 e he
          cases hr2
          exact hcur r rfl e (List.mem_cons_of_mem ev he)
        by_cases hact : ev.event_type = "command" ∨ ev.event_type = "edit"
        · cases hmk : mkChainLink r ev with
          | none =>
            rw [show chainsLoop (ev :: rest) (some r) = chainsLoop rest (some r) from by
              simp [chainsLoop, hev, hact, hmk]] at hlk
            exact ih (some r) hpw.2 hradv lk hlk
          | some link =>
            rw [show chainsLoop (ev :: rest) (some r) = link :: chainsLoop rest (some r) from by
              simp [chainsLoop, hev, hact, hmk]] at hlk
            rcases List.mem_cons.mp hlk with rfl | hlk2
            · rcases mkChainLink_timestamps r ev lk hmk with ⟨h1, h2⟩
              rw [h1, h2]
              exact hcur r rfl ev (List.mem_cons_self ev rest)
            · exact ih (some r) hpw.2 hradv lk hlk2
        · rw [show chainsLoop (ev :: rest) (some r) = chainsLoop rest (some r) from by
            simp [chainsLoop, hev, hact]] at hlk
          exact ih (some r) hpw.2 hradv lk hlk

/-- The scan produces at most one link per command or edit event in the
scanned list. -/
theorem chainsLoop_length (l : List Event) (cur : Option Event) :
    (chainsLoop l cur).length ≤
      l.countP (fun e => e.event_type == "command" || e.event_type == "edit") := by
  induction l generalizing cur with
  | nil => simp [chainsLoop]
  | cons ev rest ih =>
    rw [List.countP_cons]
    by_cases hev : ev.event_type = "reasoning"
    · rw [show chainsLoop (ev :: rest) cur = chainsLoop rest (some ev) from by
        simp [chainsLoop, hev]]
      exact le_trans (ih (some ev)) (Nat.le_add_right _ _)
    · cases cur with
      | none =>
        rw [show chainsLoop (ev :: rest) none = chainsLoop rest none from by
          simp [chainsLoop, hev]]
        exact le_trans (ih none) (Nat.le_add_right _ _)
      | some r =>
        by_cases hact : ev.event_type = "command" ∨ ev.event_type = "edit"
        · have hp : (ev.event_type == "command" || ev.event_type == "edit") = true := by
            rcases hact with h | h <;> simp [h]
          cases hmk : mkChainLink r ev with
          | none =>
            rw [show chainsLoop (ev :: rest) (some r) = chainsLoop rest (some r) from by
              simp [chainsLoop, hev, hact, hmk]]
            exact le_trans (ih (some r)) (Nat.le_add_right _ _)
          | some link =>
            rw [show chainsLoop (ev :: rest) (some r) = link :: chainsLoop rest (some r) from by
              simp [chainsLoop, hev, hact, hmk]]
            simp only [List.length_cons, hp, if_true]
            have := ih (some r)
            omega
        · rw [show chainsLoop (ev :: rest) (some r) = chainsLoop rest (some r) from by
            simp [chainsLoop, hev, hact]]
          exact le_trans (ih (some r)) (Nat.le_add_right _ _)

/-- Values surviving the clamping loop: every key of the input maps in the
output to its float conversion clamped into [1.0, 5.0]. -/
theorem clampKVs_lookup (ds out : List (String × JVal))
    (h : clampKVs ds = Except.ok out) :
    ∀ k v, jLookup ds k = some v →
      ∃ q, pyFloat v = Except.ok q ∧
        jLookup out k = some (JVal.num (max 1 (min 5 q))) := by
  induction ds generalizing out with
  | nil =>
    intro k v hv
    simp [jLookup] at hv
  | cons kv rest ih =>
    obtain ⟨k1, v1⟩ := kv
    intro k v hv
    simp only [clampKVs, Bind.bind] at h
    cases hq : pyFloat v1 with
    | error e => rw [hq] at h; simp [Except.bind] at h
    | ok q1 =>
      rw [hq] at h
      simp only [Except.bind] at h
      cases hrest : clampKVs rest with
      | error e => rw [hrest] at h; simp at h
      | ok out2 =>
        rw [hrest] at h
        simp only [Except.ok.injEq] at h
        subst h
        by_cases hk : k1 = k
        · subst hk
          simp only [jLookup, if_pos rfl] at hv ⊢
          exact ⟨q1, by rw [← Option.some_inj.mp hv]; exact hq, rfl⟩
        · simp only [jLookup, if_neg hk] at hv ⊢
          exact ih out2 hrest k v hv



/-- Inversion of a successful field extraction, sub-score half: when the raw
response carries a `detailed_scores` object, every entry of it appears in the
result float-converted and clamped into [1.0, 5.0]. -/
theorem extractEval_ds (kvs dsKvs : List (String × JVal)) (res : JVal)
    (hds : jLookup kvs "detailed_scores" = some (JVal.obj dsKvs))
    (h : extractEval (JVal.obj kvs) = Except.ok res) :
    ∀ k v, jLookup dsKvs k = some v →
      ∃ q, pyFloat v = Except.ok q ∧ dsScoreOf res k = some (max 1 (min 5 q)) := by
  have hds2 : jGetD kvs "detailed_scores" (JVal.obj []) = JVal.obj dsKvs := by
    simp [jGetD, hds]
  simp only [extractEval, Bind.bind, hds2] at h
  cases hrs : pyFloat (jGetD kvs "reasoning_score" (JVal.num (5 / 2))) with
  | error e =>
    rw [hrs] at h
    simp only [Except.bind] at h
    exact Except.noConfusion h
  | ok rs =>
    rw [hrs] at h
    simp only [Except.bind, Bind.bind, dsClamp] at h
    cases hcl : clampKVs dsKvs with
    | error e =>
      rw [hcl] at h
      simp only [Bind.bind, Except.bind] at h
      exact Except.noConfusion h
    | ok out2 =>
      rw [hcl] at h
      simp only [Bind.bind, Except.bind, Except.ok.injEq] at h
      subst h
      intro k v hv
      obtain ⟨q, hq, hl⟩ := clampKVs_lookup dsKvs out2 hcl k v hv
      exact ⟨q, hq, by simp [dsScoreOf, jLookup, hl]⟩

/-- Inversion of a successful field extraction, overall-score half: the
stored overall score is the float conversion of the raw one clamped into
[1.0, 5.0]. -/
theorem extractEval_score (kvs : List (String × JVal)) (res : JVal)
    (h : extractEval (JVal.obj kvs) = Except.ok res) :
    ∃ q, pyFloat (jGetD kvs "reasoning_score" (JVal.num (5 / 2))) = Except.ok q ∧
      scoreOfJ res = some (max 1 (min 5 q)) := by
  simp only [extractEval, Bind.bind] at h
  cases hrs : pyFloat (jGetD kvs "reasoning_score" (JVal.num (5 / 2))) with
  | error e =>
    rw [hrs] at h
    simp only [Except.bind] at h
    exact Except.noConfusion h
  | ok rs =>
    rw [hrs] at h
    simp only [Except.bind] at h
    cases hcl : dsClamp (jGetD kvs "detailed_scores" (JVal.obj [])) with
    | error e =>
      rw [hcl] at h
      simp only [Except.bind] at h
      exact Except.noConfusion h
    | ok out2 =>
      rw [hcl] at h
      simp only [Except.bind, Except.ok.injEq] at h
      subst h
      exact ⟨rs, rfl, by simp [scoreOfJ, jLookup]⟩

/-! ## Claims -/

/-- Claim C2 (code evaluated at the failing input): for an edit event whose
diff text begins with the unified-diff hunk marker and whose details carry a
full replacement body, a failed patch application leaves the target file
untouched — the replacement body is never written, although the claim (and
the comment at lines 174-175 of the source) says it is.  The first two
conjuncts exhibit that the event satisfies the premises of the claim; the
last two show the file still holds its old content. -/
theorem C2_patch_fallback_writes_nothing :
    pyStartsWith "@@ -1 +1 @@\n-old\n+new" "@@" = true
    ∧ jLookup [("file", JVal.str "src/app.py"),
        ("diff", JVal.str "@@ -1 +1 @@\n-old\n+new"),
        ("change", JVal.str "new content")] "change" = some (JVal.str "new content")
    ∧ apply_diffs (fun _ _ => PatchTry.patchFailed)
        [("src/app.py", "old content")] [hunkEditEvent] = [("src/app.py", "old content")]
    ∧ fsLookup (apply_diffs (fun _ _ => PatchTry.patchFailed)
        [("src/app.py", "old content")] [hunkEditEvent]) "src/app.py" ≠ some "new content" := by
  refine ⟨rfl, rfl, by with_unfolding_all rfl, ?_⟩
  intro h
  have h1 : fsLookup (apply_diffs (fun _ _ => PatchTry.patchFailed)
      [("src/app.py", "old content")] [hunkEditEvent]) "src/app.py" = some "old content" := by
    with_unfolding_all rfl
  exact absurd (h1.symm.trans h) (by decide)

/-- Claim C1 (code evaluated at the failing input): with every external
stage succeeding (clone ok, Node image built, `npm test` exits 0) and the
judge returning a structured verdict with overall score 4.0, the pipeline
still returns the degraded verdict — tests-passed 0, score 0.0 and a
commentary naming the `TypeError` — because the success-path `QAResult`
construction passes the keyword arguments `detailed_scores`, `strengths`,
`weaknesses` and `recommendations`, none of which `app/models.py` declares. -/
theorem C1_pipeline_always_degrades :
    run_tests_in_docker fullSuccessEnv oneReasoningTrace.events = (true, "all tests passed")
    ∧ scoreOfJ (evaluate_reasoning_with_llm goodApi oneReasoningTrace true "all tests passed")
        = some 4
    ∧ run_qa_pipeline fullSuccessEnv goodApi oneReasoningTrace =
        Except.ok (QAResultRec.mk "trace-1" 0 (JVal.num 0)
          (JVal.str
            "QA pipeline failed: \x27detailed_scores\x27 is an invalid keyword argument for QAResult")
          "\x27detailed_scores\x27 is an invalid keyword argument for QAResult") := by
  refine ⟨by with_unfolding_all rfl, by with_unfolding_all rfl, by with_unfolding_all rfl⟩

/-- Claim C3 (counterexample): on a raw JSON-mode response that is not valid
JSON but plainly carries `reasoning_score: 4.0` and `judge_comments: fine`,
the implemented parser returns the neutral default (score 2.5) while the
claimed four-tier chain would extract score 4.0 at its tier 3 — the code has
no regex-style extraction tier. -/
theorem C3_no_regex_tier_counterexample :
    scoreOfJ (exValue (call_openai_api_structured
        (ApiMode.schemaUnavailable c3BadContent))) = some (5 / 2)
    ∧ scoreOfJ (specFourTierParse (ApiMode.schemaUnavailable c3BadContent)) = some 4
    ∧ call_openai_api_structured (ApiMode.schemaUnavailable c3BadContent) ≠
        Except.ok (specFourTierParse (ApiMode.schemaUnavailable c3BadContent)) := by
  refine ⟨by with_unfolding_all rfl, by with_unfolding_all rfl, ?_⟩
  intro h
  have h1 : scoreOfJ (exValue (call_openai_api_structured
      (ApiMode.schemaUnavailable c3BadContent))) = some (5 / 2) := by
    with_unfolding_all rfl
  rw [h] at h1
  have h2 : scoreOfJ (exValue (Except.ok (specFourTierParse
      (ApiMode.schemaUnavailable c3BadContent)))) = some 4 := by
    with_unfolding_all rfl
  have h3 := h1.symm.trans h2
  rw [Option.some_inj] at h3
  norm_num at h3

/-- Claim C3 (amended): response parsing has three tiers, not four — (1) a
schema-constrained structured response is parsed directly; (2) on schema-mode
unavailability a JSON-object response is parsed after stripping markdown code
fences; (3) on JSON-decode failure the neutral default (score 2.5, commentary
noting the parse failure, empty detailed scores) is returned directly; no
regex-style key extraction exists. -/
theorem C3_parsing_three_tiers :
    (∀ content v, jsonParse content = some v →
      call_openai_api_structured (ApiMode.structuredOk content) = Except.ok v)
    ∧ (∀ content data, jsonParse (stripFences content) = some data →
        parse_enhanced_response content = extractEval data)
    ∧ (parse_enhanced_response "```json\n\x7b\"reasoning_score\": 3.0\x7d\n```" =
        Except.ok (JVal.obj [("detailed_scores", JVal.obj []),
          ("reasoning_score", JVal.num 3),
          ("judge_comments", JVal.str "No comments provided"),
          ("strengths", JVal.arr []), ("weaknesses", JVal.arr []),
          ("recommendations", JVal.arr [])]))
    ∧ (∀ s, jsonParse (stripFences s) = none →
        parse_enhanced_response s = Except.ok parseFailDict) := by
  refine ⟨?_, ?_, by with_unfolding_all rfl, ?_⟩
  · intro content v h
    simp [call_openai_api_structured, h]
  · intro content data h
    simp [parse_enhanced_response, h]
  · intro s h
    simp [parse_enhanced_response, h]

/-- Witness for the amended claim C3 at a concrete non-JSON response. -/
theorem C3_parsing_three_tiers_witness :
    parse_enhanced_response "this is not json" = Except.ok parseFailDict :=
  C3_parsing_three_tiers.2.2.2 "this is not json" (by with_unfolding_all rfl)

/-- Claim C4: the chain builder on the scenario trace (Reasoning at t0,
Command at t1, Edit at t2) produces exactly the two links pairing that
reasoning with each action; and when the scan sees no reasoning event at all,
no link is produced. -/
theorem C4_chain_builder :
    build_reasoning_chains [evReasoningT0] [evCommandT1] [evEditT2] = [linkRC, linkRE]
    ∧ ∀ ce ee : List Event,
        (∀ e ∈ ce ++ ee, e.event_type ≠ "reasoning") →
        build_reasoning_chains [] ce ee = [] := by
  constructor
  · with_unfolding_all rfl
  · intro ce ee h
    unfold build_reasoning_chains
    apply chainsLoop_eq_nil
    intro e he
    have hperm := List.perm_insertionSort tsLE ([] ++ ce ++ ee)
    have he2 : e ∈ ([] ++ ce ++ ee) := hperm.mem_iff.mp he
    exact h e (by simpa using he2)

/-- Witness for the no-reasoning half of claim C4. -/
theorem C4_chain_builder_witness :
    build_reasoning_chains [] [evCommandT1] [evEditT2] = [] :=
  C4_chain_builder.2 [evCommandT1] [evEditT2]
    (by intro e he; simp only [List.cons_append, List.nil_append] at he
        fin_cases he <;> decide)

/-- Claim C5: the test runner scans the fixed candidate list in order and the
first resolvable candidate determines the outcome — a completed process with
exit code other than 127 yields that code with the combined output, a timeout
yields a failed run without falling through, exit 127 and unstartable
processes fall through — and, when no candidate resolves, the outcome is the
failed no-runnable-command diagnostic.  The second half states determinism:
the result depends only on the per-candidate outcomes of the fixed list. -/
theorem C5_test_runner_first_resolvable :
    (∀ runCmd : String → CmdOutcome,
      run_tests_in_container runCmd =
        (test_commands.findSome? (fun c => resolveOutcome (runCmd c))).getD
          (1, "No test command found or all test commands failed"))
    ∧ (∀ runCmd1 runCmd2 : String → CmdOutcome,
        (∀ c ∈ test_commands, runCmd1 c = runCmd2 c) →
        run_tests_in_container runCmd1 = run_tests_in_container runCmd2) := by
  constructor
  · intro runCmd
    exact runTestsLoop_eq_findSome runCmd test_commands
  · intro r1 r2 hagree
    have hgen : ∀ cmds : List String, (∀ c ∈ cmds, r1 c = r2 c) →
        runTestsLoop r1 cmds = runTestsLoop r2 cmds := by
      intro cmds
      induction cmds with
      | nil => intro _; rfl
      | cons cmd rest ih =>
        intro hag
        have h1 := hag cmd (List.mem_cons_self _ _)
        have h2 : ∀ c ∈ rest, r1 c = r2 c := fun c hc => hag c (List.mem_cons_of_mem _ hc)
        simp only [runTestsLoop, h1]
        cases r2 cmd with
        | exited code out err =>
          by_cases h : code = 127 <;> simp [h, ih h2]
        | cmdTimedOut => rfl
        | cmdRaised => exact ih h2
    exact hgen test_commands hagree

/-- Witness for claim C5: with `npm test` unresolvable (exit 127) and the
pytest module run completing with exit 2, the runner returns that second
outcome; and any oracle agreeing on the candidate list gives the same
result. -/
theorem C5_test_runner_first_resolvable_witness :
    run_tests_in_container probeRunB = run_tests_in_container probeRunA ∧
      run_tests_in_container probeRunA = (2, "1 failed") := by
  refine ⟨C5_test_runner_first_resolvable.2 probeRunB probeRunA ?_, by with_unfolding_all rfl⟩
  intro c hc
  fin_cases hc <;> rfl

/-- Claim C6: with no Dockerfile at the repository root, the environment
builder probes `package.json`, then `requirements.txt`, then `pom.xml`, in
that priority order, synthesising the Node.js, Python and Maven default
descriptors respectively, and raises the unsupported-project error when no
marker matches; a repository with a `package.json` and no descriptor gets
exactly the Node.js default descriptor written. -/
theorem C6_dockerfile_synthesis :
    ∀ fs : SandboxFS, fsExists fs "Dockerfile" = false →
      (fsExists fs "package.json" = true →
        detectDockerfileContent fs = Except.ok nodeDockerfile ∧
        ∀ repoHash, build_docker_container repoHash BuildOutcome.buildOk fs =
          Except.ok (fsWrite fs "Dockerfile" nodeDockerfile, "trace-test-" ++ repoHash))
      ∧ (fsExists fs "package.json" = false → fsExists fs "requirements.txt" = true →
          detectDockerfileContent fs = Except.ok pythonDockerfile)
      ∧ (fsExists fs "package.json" = false → fsExists fs "requirements.txt" = false →
          fsExists fs "pom.xml" = true →
          detectDockerfileContent fs = Except.ok mavenDockerfile)
      ∧ (fsExists fs "package.json" = false → fsExists fs "requirements.txt" = false →
          fsExists fs "pom.xml" = false →
          ∀ repoHash build, build_docker_container repoHash build fs =
            Except.error "No Dockerfile found and could not auto-detect project type") := by
  intro fs hdf
  refine ⟨?_, ?_, ?_, ?_⟩
  · intro hpkg
    have hdet : detectDockerfileContent fs = Except.ok nodeDockerfile := by
      simp [detectDockerfileContent, hpkg]
    refine ⟨hdet, fun repoHash => ?_⟩
    simp [build_docker_container, hdf, hdet]
  · intro hpkg hreq
    simp [detectDockerfileContent, hpkg, hreq]
  · intro hpkg hreq hpom
    simp [detectDockerfileContent, hpkg, hreq, hpom]
  · intro hpkg hreq hpom repoHash build
    simp [build_docker_container, detectDockerfileContent, hdf, hpkg, hreq, hpom]

/-- Witness for claim C6 at a repository carrying only a package manifest. -/
theorem C6_dockerfile_synthesis_witness :
    detectDockerfileContent nodeRepoFS = Except.ok nodeDockerfile ∧
      build_docker_container "abcd1234" BuildOutcome.buildOk nodeRepoFS =
        Except.ok (fsWrite nodeRepoFS "Dockerfile" nodeDockerfile, "trace-test-" ++ "abcd1234") := by
  have h := (C6_dockerfile_synthesis nodeRepoFS (by rfl)).1 (by rfl)
  exact ⟨h.1, h.2 "abcd1234"⟩

/-- Claim C7: for every trace without reasoning events the judgment engine
returns the neutral default — score 2.5 and the explicit no-reasoning note —
for every behaviour of the completion service, i.e. without invoking the
model. -/
theorem C7_no_reasoning_neutral :
    ∀ (api : String → ApiMode) (trace : Trace) (tests_passed : Bool) (test_output : String),
      (∀ e ∈ trace.events, e.event_type ≠ "reasoning") →
      evaluate_reasoning_with_llm api trace tests_passed test_output = noReasoningDict
      ∧ scoreOfJ noReasoningDict = some (5 / 2)
      ∧ commentOfJ noReasoningDict = some "No reasoning events found in trace" := by
  intro api trace tp out h
  have hfil : trace.events.filter (fun e => e.event_type == "reasoning") = [] := by
    rw [List.filter_eq_nil_iff]
    intro e he
    simpa using h e he
  exact ⟨by simp [evaluate_reasoning_with_llm, hfil],
    by with_unfolding_all rfl, by with_unfolding_all rfl⟩

/-- Witness for claim C7 at a trace holding only command and edit events. -/
theorem C7_no_reasoning_neutral_witness :
    evaluate_reasoning_with_llm netDownApi noReasoningTrace true "ok" = noReasoningDict :=
  (C7_no_reasoning_neutral netDownApi noReasoningTrace true "ok"
    (by intro e he
        simp only [noReasoningTrace] at he
        fin_cases he <;> decide)).1

/-- Claim C8: stage-level failures of the test half do not propagate — a
clone failure, clone timeout, image-build failure or build timeout each turn
into a failed TestOutcome whose text records the cause (first four
conjuncts); any nonempty test output is embedded, truncated to 500
characters, into the judge prompt (fifth conjunct); and for a trace with
reasoning events the judgment outcome is a function of the model response to
exactly that prompt, so judgment still runs on the degraded outcome (sixth
conjunct). -/
theorem C8_stage_failures_degrade :
    (∀ (fs : SandboxFS) (p : Nat → SandboxFS → PatchTry) (hash : String)
        (b : BuildOutcome) (r : String → CmdOutcome) (events : List Event) (e : String),
        run_tests_in_docker ⟨CloneOutcome.cloneFailed e, fs, p, hash, b, r⟩ events =
          (false, "Error running tests: " ++ ("Failed to clone repository: " ++ e)))
    ∧ (∀ (fs : SandboxFS) (p : Nat → SandboxFS → PatchTry) (hash : String)
        (b : BuildOutcome) (r : String → CmdOutcome) (events : List Event),
        run_tests_in_docker ⟨CloneOutcome.cloneTimedOut, fs, p, hash, b, r⟩ events =
          (false, "Error running tests: " ++ "Repository clone timed out"))
    ∧ (∀ (fs : SandboxFS) (p : Nat → SandboxFS → PatchTry) (hash : String)
        (r : String → CmdOutcome) (events : List Event) (e : String),
        fsExists (apply_diffs p fs events) "Dockerfile" = true →
        run_tests_in_docker ⟨CloneOutcome.cloned, fs, p, hash, BuildOutcome.buildFailed e, r⟩
            events =
          (false, "Error running tests: " ++ ("Failed to build Docker image: " ++ e)))
    ∧ (∀ (fs : SandboxFS) (p : Nat → SandboxFS → PatchTry) (hash : String)
        (r : String → CmdOutcome) (events : List Event),
        fsExists (apply_diffs p fs events) "Dockerfile" = true →
        run_tests_in_docker ⟨CloneOutcome.cloned, fs, p, hash, BuildOutcome.buildTimedOut, r⟩
            events =
          (false, "Error running tests: " ++ "Docker build timed out"))
    ∧ (∀ (trace : Trace) (chains : List ChainLink) (tests_passed : Bool) (out pr : String),
        out ≠ "" →
        construct_enhanced_prompt trace chains tests_passed out = Except.ok pr →
        ∃ l r2, pr = l ++ pyTake out 500 ++ r2)
    ∧ (∀ (trace : Trace) (tp : Bool) (out : String) (api1 api2 : String → ApiMode),
        (trace.events.filter (fun e => e.event_type == "reasoning")).isEmpty = false →
        (∀ pr, judgePrompt trace tp out = Except.ok pr → api1 pr = api2 pr) →
        evaluate_reasoning_with_llm api1 trace tp out =
          evaluate_reasoning_with_llm api2 trace tp out) := by
  refine ⟨fun fs p hash b r events e => rfl, fun fs p hash b r events => rfl,
    ?_, ?_, ?_, ?_⟩
  · intro fs p hash r events e hdf
    simp [run_tests_in_docker, build_docker_container, hdf]
  · intro fs p hash r events hdf
    simp [run_tests_in_docker, build_docker_container, hdf]
  · intro trace chains tp out pr hne hc
    simp only [construct_enhanced_prompt, Bind.bind] at hc
    cases hfmt : format_reasoning_chains chains with
    | error e =>
      rw [hfmt] at hc
      simp only [Except.bind] at hc
      exact Except.noConfusion hc
    | ok ct =>
      rw [hfmt] at hc
      simp only [Except.bind, Except.ok.injEq, if_neg hne] at hc
      exact ⟨promptHead ++ trace.bug_description ++ promptChainsHeader ++ ct
          ++ promptTestsHeader ++ boolPyStr tp ++ promptTestOutputHeader,
        promptRubric, hc.symm⟩
  · intro trace tp out api1 api2 hne hag
    simp only [evaluate_reasoning_with_llm, hne, Bind.bind, Bool.false_eq_true, if_false]
    cases hp : judgePrompt trace tp out with
    | error e => simp only [Except.bind]
    | ok pr =>
      simp only [Except.bind]
      rw [hag pr hp]

/-- Witness for claim C8: a concrete build failure yields the degraded
TestOutcome naming the build error, and with a reasoning trace two
completion services agreeing on the submitted prompt produce the same
judgment. -/
theorem C8_stage_failures_degrade_witness :
    run_tests_in_docker buildFailEnv [] =
      (false, "Error running tests: " ++ ("Failed to build Docker image: "
        ++ "npm ERR! install failed"))
    ∧ evaluate_reasoning_with_llm netDownApi oneReasoningTrace false
        "Error running tests: Repository clone timed out" =
      evaluate_reasoning_with_llm netDownApi2 oneReasoningTrace false
        "Error running tests: Repository clone timed out" := by
  constructor
  · exact C8_stage_failures_degrade.2.2.1 [("Dockerfile", "FROM node:18\n")]
      (fun _ _ => PatchTry.patchFailed) "ffff0000" (fun _ => CmdOutcome.cmdRaised) []
      "npm ERR! install failed" (by with_unfolding_all rfl)
  · exact C8_stage_failures_degrade.2.2.2.2.2 oneReasoningTrace false
      "Error running tests: Repository clone timed out" netDownApi netDownApi2
      (by with_unfolding_all rfl) (fun pr _ => rfl)

/-- Claim C9: in the JSON-mode parser, every sub-score present in the raw
`detailed_scores` object is stored float-converted and clamped into
[1.0, 5.0], and so is the overall reasoning score; at the concrete response
`c9RawContent` the raw sub-score 7.0 is stored as 5.0, the raw 0.5 as 1.0,
and the raw overall 7.0 as 5.0. -/
theorem C9_scores_clamped :
    (∀ (kvs dsKvs : List (String × JVal)) (res : JVal),
      jLookup kvs "detailed_scores" = some (JVal.obj dsKvs) →
      extractEval (JVal.obj kvs) = Except.ok res →
      ∀ k q0, jLookup dsKvs k = some (JVal.num q0) →
        dsScoreOf res k = some (max 1 (min 5 q0)) ∧
        1 ≤ max 1 (min 5 q0) ∧ max 1 (min 5 q0) ≤ 5)
    ∧ (∀ (kvs : List (String × JVal)) (res : JVal),
        extractEval (JVal.obj kvs) = Except.ok res →
        ∃ q, scoreOfJ res = some q ∧ 1 ≤ q ∧ q ≤ 5)
    ∧ dsScoreOf (exValue (parse_enhanced_response c9RawContent)) "efficiency" = some 5
    ∧ dsScoreOf (exValue (parse_enhanced_response c9RawContent)) "hypothesis_quality" = some 1
    ∧ scoreOfJ (exValue (parse_enhanced_response c9RawContent)) = some 5 := by
  refine ⟨?_, ?_, by with_unfolding_all rfl, by with_unfolding_all rfl,
    by with_unfolding_all rfl⟩
  · intro kvs dsKvs res hds hex k q0 hk
    obtain ⟨q, hq, hscore⟩ := extractEval_ds kvs dsKvs res hds hex k (JVal.num q0) hk
    have hq0 : q0 = q := by
      simp only [pyFloat, Except.ok.injEq] at hq
      exact hq
    subst hq0
    exact ⟨hscore, le_max_left _ _, max_le (by norm_num) (min_le_left _ _)⟩
  · intro kvs res hex
    obtain ⟨q, _, hscore⟩ := extractEval_score kvs res hex
    exact ⟨max 1 (min 5 q), hscore, le_max_left _ _, max_le (by norm_num) (min_le_left _ _)⟩

/-- Witness for claim C9 at a decoded object with raw sub-score 7.0. -/
theorem C9_scores_clamped_witness :
    dsScoreOf (exValue (extractEval (JVal.obj c9Kvs))) "efficiency" =
      some (max 1 (min 5 7)) ∧
    1 ≤ max 1 (min 5 (7 : ℚ)) ∧ max 1 (min 5 (7 : ℚ)) ≤ 5 :=
  C9_scores_clamped.1 c9Kvs [("efficiency", JVal.num 7)]
    (exValue (extractEval (JVal.obj c9Kvs)))
    (by with_unfolding_all rfl) (by with_unfolding_all rfl)
    "efficiency" 7 (by with_unfolding_all rfl)

/-- Claim C10: for well-typed input lists, every link built by the chain
builder pairs a reasoning event with an action whose timestamp is at least
the reasoning timestamp (in the lexicographic order Python uses on the
ISO-8601 strings), and the number of links is at most the number of command
events plus the number of edit events. -/
theorem C10_chain_invariants :
    ∀ re ce ee : List Event,
      (∀ e ∈ re, e.event_type = "reasoning") →
      (∀ e ∈ ce, e.event_type = "command") →
      (∀ e ∈ ee, e.event_type = "edit") →
      (∀ lk ∈ build_reasoning_chains re ce ee,
        strLe lk.reasoning_timestamp lk.action_timestamp = true)
      ∧ (build_reasoning_chains re ce ee).length ≤ ce.length + ee.length := by
  intro re ce ee hre hce hee
  haveI instTot : IsTotal Event tsLE := ⟨tsLE_total⟩
  haveI instTrans : IsTrans Event tsLE := ⟨tsLE_trans⟩
  constructor
  · intro lk hlk
    have hs : List.Pairwise tsLE (List.insertionSort tsLE (re ++ ce ++ ee)) :=
      List.sorted_insertionSort tsLE _
    exact chainsLoop_ts _ none hs (fun r hr => by cases hr) lk hlk
  · have h1 := chainsLoop_length (List.insertionSort tsLE (re ++ ce ++ ee)) none
    have hperm := List.perm_insertionSort tsLE (re ++ ce ++ ee)
    rw [hperm.countP_eq] at h1
    have hcount : (re ++ ce ++ ee).countP
        (fun e => e.event_type == "command" || e.event_type == "edit")
        ≤ ce.length + ee.length := by
      rw [List.countP_append, List.countP_append]
      have h0 : re.countP (fun e => e.event_type == "command" || e.event_type == "edit") = 0 := by
        rw [List.countP_eq_zero]
        intro e he
        have ht := hre e he
        simp [ht]
      have hc : ce.countP (fun e => e.event_type == "command" || e.event_type == "edit")
          ≤ ce.length := List.countP_le_length _
      have he2 : ee.countP (fun e => e.event_type == "command" || e.event_type == "edit")
          ≤ ee.length := List.countP_le_length _
      omega
    exact le_trans h1 hcount

/-- Witness for claim C10 at the scenario event lists. -/
theorem C10_chain_invariants_witness :
    (build_reasoning_chains [evReasoningT0] [evCommandT1] [evEditT2]).length ≤ 1 + 1 :=
  (C10_chain_invariants [evReasoningT0] [evCommandT1] [evEditT2]
    (by intro e he; fin_cases he; rfl)
    (by intro e he; fin_cases he; rfl)
    (by intro e he; fin_cases he; rfl)).2
